import Mathlib

/-!
Shallow embedding of the Weather & News aggregation server (src/server.js)
and the relevant client-side rendering (src/public/script.js).

JavaScript numbers are modelled as rationals, optional upstream fields as
`Option`, and each Express handler as a pure function from its query
parameters and the outcome of its outbound HTTP calls to the HTTP response
it sends.  A boolean trace component records whether each outbound call
was actually issued on the path taken.
-/

/-- JavaScript `Math.round`: round half away from zero toward positive
infinity, i.e. `Math.round x = floor (x + 0.5)`. -/
def jsRound (q : ℚ) : ℤ := ⌊q + 1/2⌋

/-- JavaScript `v || 0` applied to an optional numeric field
(`weatherData.wind?.speed || 0`): an absent field and a present value `0`
are both falsy and yield `0`; any other value passes through. -/
def jsOrZero : Option ℚ → ℚ
  | none => 0
  | some v => if v = 0 then 0 else v

/-- JavaScript `s || d` applied to an optional string field (client side,
where a missing upstream field arrives as `null`): absent and empty-string
values are falsy and yield the default `d`. -/
def jsOrStr (o : Option String) (d : String) : String :=
  match o with
  | none => d
  | some s => if s = "" then d else s

/-- JavaScript `s || d` on a plain string: the empty string is falsy. -/
def jsOrDefault (s d : String) : String := if s = "" then d else s

/-- JavaScript truthiness of an optional query parameter or string field:
absent and empty-string values are falsy. -/
def jsTruthyStr : Option String → Bool
  | none => false
  | some s => s != ""

/-- The upstream OpenWeather payload, restricted to the fields the server
reads (`weatherData.main.temp`, `.main.feels_like`, `.weather[0]`,
`.coord`, `.wind?.speed`, `.sys.country`, `.rain?.[3h]`, `.name`,
`.main.humidity`, `.main.pressure`).  `wind?.speed` and `rain?.[3h]` use
optional chaining in the source, so they are `Option`; the rest are read
unconditionally. -/
structure WeatherData where
  main_temp : ℚ
  main_feels_like : ℚ
  main_humidity : ℤ
  main_pressure : ℤ
  weather0_description : String
  weather0_icon : String
  coord_lat : ℚ
  coord_lon : ℚ
  wind_speed : Option ℚ
  sys_country : String
  rain_3h : Option ℚ
  name : String
deriving DecidableEq

/-- The shaped weather object (`processedData` / `processedWeather` in
src/server.js). -/
structure WeatherReport where
  temperature : ℤ
  description : String
  coord_lat : ℚ
  coord_lon : ℚ
  feelsLike : ℤ
  windSpeed : ℚ
  countryCode : String
  rainVolume : ℚ
  city : String
  humidity : ℤ
  pressure : ℤ
  icon : String
deriving DecidableEq

/-- The weather-shaping step of `GET /api/weather`
(src/server.js lines 49-64, `processedData`). -/
def processWeather (weatherData : WeatherData) : WeatherReport :=
  { temperature := jsRound weatherData.main_temp
    description := weatherData.weather0_description
    coord_lat := weatherData.coord_lat
    coord_lon := weatherData.coord_lon
    feelsLike := jsRound weatherData.main_feels_like
    windSpeed := jsOrZero weatherData.wind_speed
    countryCode := weatherData.sys_country
    rainVolume := jsOrZero weatherData.rain_3h
    city := weatherData.name
    humidity := weatherData.main_humidity
    pressure := weatherData.main_pressure
    icon := weatherData.weather0_icon }

/-- The weather-shaping step of `GET /api/data`
(src/server.js lines 177-192, `processedWeather`): a second, textually
duplicated copy of the same inline mapping. -/
def processWeatherData (weatherData : WeatherData) : WeatherReport :=
  { temperature := jsRound weatherData.main_temp
    description := weatherData.weather0_description
    coord_lat := weatherData.coord_lat
    coord_lon := weatherData.coord_lon
    feelsLike := jsRound weatherData.main_feels_like
    windSpeed := jsOrZero weatherData.wind_speed
    countryCode := weatherData.sys_country
    rainVolume := jsOrZero weatherData.rain_3h
    city := weatherData.name
    humidity := weatherData.main_humidity
    pressure := weatherData.main_pressure
    icon := weatherData.weather0_icon }

/-- One article of the upstream News API payload, restricted to the fields
the server reads.  `title`, `description` and `urlToImage` may be `null`
upstream (missing image or text), hence `Option`; `source.name`, `url`
and `publishedAt` are read unconditionally. -/
structure NewsArticleUp where
  title : Option String
  description : Option String
  url : String
  publishedAt : String
  source_name : String
  urlToImage : Option String
deriving DecidableEq

/-- The upstream News API payload (`newsData.totalResults`,
`newsData.articles`). -/
structure NewsData where
  totalResults : ℤ
  articles : List NewsArticleUp
deriving DecidableEq

/-- The shaped article the server sends to the client (the object literal
inside `newsData.articles.map` in src/server.js). -/
structure NewsArticle where
  title : Option String
  description : Option String
  url : String
  publishedAt : String
  source : String
  imageUrl : Option String
deriving DecidableEq

/-- The per-article field mapping of `GET /api/news`
(src/server.js lines 120-127): each field is copied through, with
`source.name` flattened to `source` and `urlToImage` renamed `imageUrl`.
Missing optional fields stay missing (`null` passes through). -/
def mapArticle (article : NewsArticleUp) : NewsArticle :=
  { title := article.title
    description := article.description
    url := article.url
    publishedAt := article.publishedAt
    source := article.source_name
    imageUrl := article.urlToImage }

/-- The shaped news object the server sends.  The standalone endpoint
never sets `error`; the combined endpoint sets it on the degraded path. -/
structure NewsResult where
  totalResults : ℤ
  articles : List NewsArticle
  error : Option String
deriving DecidableEq

/-- The news-shaping step of `GET /api/news`
(src/server.js lines 118-128, `processedNews`). -/
def processNews (newsData : NewsData) : NewsResult :=
  { totalResults := newsData.totalResults
    articles := newsData.articles.map mapArticle
    error := none }

/-- The query-string parameters of the outbound News API request
(src/server.js line 111 and line 197): the search term plus the fixed
`language=en`, `sortBy=publishedAt`, `pageSize=5`. -/
structure NewsQuery where
  q : String
  language : String
  sortBy : String
  pageSize : ℕ
deriving DecidableEq

/-- Builder of the outbound News API query for a search term. -/
def newsQuery (q : String) : NewsQuery :=
  { q := q, language := "en", sortBy := "publishedAt", pageSize := 5 }

/-- Outcome of one outbound axios call: a parsed payload, an HTTP error
carrying `error.response.status` and `error.message`, or a failure with
no response object (network error), carrying only `error.message`. -/
inductive FetchResult (α : Type) where
  | success (a : α)
  | httpError (status : ℕ) (message : String)
  | networkError (message : String)
deriving DecidableEq

/-- Whether a fetch outcome is a success. -/
def FetchResult.isSuccess {α : Type} : FetchResult α → Bool
  | .success _ => true
  | _ => false

/-- Body of a JSON response: a success payload, an
`{error, message}` object, or the `{error, example}` object used for
missing-parameter rejections. -/
inductive ApiBody (α : Type) where
  | payload (a : α)
  | errorMessage (e m : String)
  | errorExample (e ex : String)
deriving DecidableEq

/-- An HTTP response: status code plus JSON body. -/
structure HttpResp (α : Type) where
  status : ℕ
  body : ApiBody α
deriving DecidableEq

/-- Handler of `GET /api/weather` (src/server.js lines 30-89), as a
function of the `city` query parameter and the outcome of the upstream
weather call.  The boolean records whether the outbound call was issued:
the missing-parameter rejection returns before the fetch. -/
def apiWeatherHandler (city : Option String) (fetch : FetchResult WeatherData) :
    HttpResp WeatherReport × Bool :=
  if jsTruthyStr city = false then
    (⟨400, .errorExample ("City parameter is required") ("/api/weather?city=London")⟩, false)
  else
    match fetch with
    | .success weatherData => (⟨200, .payload (processWeather weatherData)⟩, true)
    | .httpError s m =>
        if s = 404 then
          (⟨404, .errorMessage ("City not found") ("Please check the city name and try again")⟩, true)
        else if s = 401 then
          (⟨401, .errorMessage ("Invalid API key") ("Please check your OpenWeather API key")⟩, true)
        else
          (⟨500, .errorMessage ("Failed to fetch weather data") m⟩, true)
    | .networkError m =>
        (⟨500, .errorMessage ("Failed to fetch weather data") m⟩, true)

/-- Handler of `GET /api/news` (src/server.js lines 96-153), as a function
of the `city` and `country` query parameters and the outcome of the
upstream news call.  The boolean records whether the outbound call was
issued. -/
def apiNewsHandler (city country : Option String) (fetch : FetchResult NewsData) :
    HttpResp NewsResult × Bool :=
  if jsTruthyStr city = false && jsTruthyStr country = false then
    (⟨400, .errorExample ("City or country parameter is required")
        ("/api/news?city=London or /api/news?country=GB")⟩, false)
  else
    match fetch with
    | .success newsData => (⟨200, .payload (processNews newsData)⟩, true)
    | .httpError s m =>
        if s = 401 then
          (⟨401, .errorMessage ("Invalid API key") ("Please check your News API key")⟩, true)
        else if s = 429 then
          (⟨429, .errorMessage ("API rate limit exceeded") ("Please try again later")⟩, true)
        else
          (⟨500, .errorMessage ("Failed to fetch news data") m⟩, true)
    | .networkError m =>
        (⟨500, .errorMessage ("Failed to fetch news data") m⟩, true)

/-- The combined payload of `GET /api/data`: `{weather, news}`. -/
structure CombinedResult where
  weather : WeatherReport
  news : NewsResult
deriving DecidableEq

/-- Response of the combined handler together with its outbound-call
trace: whether the weather fetch and the news fetch were issued on the
path taken. -/
structure DataTrace where
  resp : HttpResp CombinedResult
  weatherCalled : Bool
  newsCalled : Bool
deriving DecidableEq

/-- Handler of `GET /api/data` (src/server.js lines 160-240).  The weather
fetch happens first; if it throws, control jumps to the outer catch (which
has only a 404 branch and a 500 fallback — no 401 branch) and the news
fetch is never issued.  A news failure is caught by the inner try/catch
and replaced by the degraded placeholder
`{totalResults: 0, articles: [], error: "News data unavailable"}`. -/
def apiDataHandler (city : Option String) (weatherFetch : FetchResult WeatherData)
    (newsFetch : FetchResult NewsData) : DataTrace :=
  if jsTruthyStr city = false then
    { resp := ⟨400, .errorExample ("City parameter is required") ("/api/data?city=London")⟩
      weatherCalled := false
      newsCalled := false }
  else
    match weatherFetch with
    | .success weatherData =>
        let newsData : NewsResult :=
          match newsFetch with
          | .success nd =>
              { totalResults := nd.totalResults
                articles := nd.articles.map (fun article =>
                  { title := article.title
                    description := article.description
                    url := article.url
                    publishedAt := article.publishedAt
                    source := article.source_name
                    imageUrl := article.urlToImage })
                error := none }
          | _ =>
              { totalResults := 0
                articles := []
                error := some ("News data unavailable") }
        { resp := ⟨200, .payload ⟨processWeatherData weatherData, newsData⟩⟩
          weatherCalled := true
          newsCalled := true }
    | .httpError s m =>
        if s = 404 then
          { resp := ⟨404, .errorMessage ("City not found") ("Please check the city name and try again")⟩
            weatherCalled := true
            newsCalled := false }
        else
          { resp := ⟨500, .errorMessage ("Failed to fetch data") m⟩
            weatherCalled := true
            newsCalled := false }
    | .networkError m =>
        { resp := ⟨500, .errorMessage ("Failed to fetch data") m⟩
          weatherCalled := true
          newsCalled := false }

/-- The data of one rendered news card (`createNewsCard` in
src/public/script.js lines 101-129): whether the image element is emitted
(the ternary on `article.imageUrl` — the empty string when the image is missing),
and the source, title and description texts with their `||` fallbacks.
The literal HTML attribute text around these values is presentation and
is not modelled. -/
structure NewsCard where
  hasImage : Bool
  sourceText : String
  titleText : String
  descriptionText : String
deriving DecidableEq

/-- Client-side card construction (`createNewsCard`,
src/public/script.js lines 101-129), applied to a server-shaped article. -/
def createNewsCard (article : NewsArticle) : NewsCard :=
  { hasImage := jsTruthyStr article.imageUrl
    sourceText := jsOrDefault article.source ("Unknown Source")
    titleText := jsOrStr article.title ("No title available")
    descriptionText := jsOrStr article.description ("No description available") }

/-- A concrete upstream weather payload matching the scenario of the spec for
London: temp 15.3, feels_like 14.1, wind.speed 3.5, no rain field,
country GB, icon 01d. -/
def londonPayload : WeatherData :=
  { main_temp := 153/10
    main_feels_like := 141/10
    main_humidity := 72
    main_pressure := 1012
    weather0_description := "clear sky"
    weather0_icon := "01d"
    coord_lat := 5151/100
    coord_lon := -13/100
    wind_speed := some (7/2)
    sys_country := "GB"
    rain_3h := none
    name := "London" }

/-- A payload with both optional numeric fields absent. -/
def calmPayload : WeatherData :=
  { londonPayload with wind_speed := none, rain_3h := none }

/-- A payload with both optional numeric fields present and equal to 0. -/
def zeroPayload : WeatherData :=
  { londonPayload with wind_speed := some 0, rain_3h := some 0 }

/-- An upstream article with every optional field missing. -/
def bareArticle : NewsArticleUp :=
  { title := none
    description := none
    url := "https://example.com/a"
    publishedAt := "2024-01-01T00:00:00Z"
    source_name := "Example Wire"
    urlToImage := none }


/-- C9: the weather-shaping step inlined in `GET /api/data` is the same
function as the one inlined in `GET /api/weather`: on every upstream
payload the two duplicated mappings produce the same WeatherReport. -/
theorem weather_mappings_equivalent :
    ∀ weatherData : WeatherData,
      processWeather weatherData = processWeatherData weatherData :=
  fun _ => rfl

/-- C5: the adapter rounds `main.temp` and `main.feels_like` with
JavaScript rounding on every payload; `jsRound` is rounding to the
nearest integer (distance at most one half); 14.6 rounds to 15 and 14.4
to 14; and on the concrete London payload (temp 15.3, feels_like 14.1,
wind 3.5, no rain, GB, 01d) the output is temperature 15, feelsLike 14,
windSpeed 3.5, rainVolume 0, countryCode GB, icon 01d. -/
theorem weather_rounding :
    (∀ weatherData : WeatherData,
        (processWeather weatherData).temperature = jsRound weatherData.main_temp ∧
        (processWeather weatherData).feelsLike = jsRound weatherData.main_feels_like) ∧
    (∀ q : ℚ, (jsRound q : ℚ) - q ≤ 1/2 ∧ q - (jsRound q : ℚ) < 1/2) ∧
    jsRound (73/5) = 15 ∧ jsRound (72/5) = 14 ∧
    (processWeather londonPayload).temperature = 15 ∧
    (processWeather londonPayload).feelsLike = 14 ∧
    (processWeather londonPayload).windSpeed = 7/2 ∧
    (processWeather londonPayload).rainVolume = 0 ∧
    (processWeather londonPayload).countryCode = "GB" ∧
    (processWeather londonPayload).icon = "01d" := by
  refine ⟨fun _ => ⟨rfl, rfl⟩, fun q => ⟨?_, ?_⟩, ?_, ?_, ?_, ?_, ?_, ?_, rfl, rfl⟩
  · have h := Int.floor_le (q + 1/2)
    simp only [jsRound]
    linarith
  · have h := Int.lt_floor_add_one (q + 1/2)
    simp only [jsRound]
    linarith
  · norm_num [jsRound]
  · norm_num [jsRound]
  · norm_num [processWeather, londonPayload, jsRound]
  · norm_num [processWeather, londonPayload, jsRound]
  · norm_num [processWeather, londonPayload, jsOrZero]
  · norm_num [processWeather, londonPayload, jsOrZero]

/-- C6: windSpeed is 0 when the upstream wind speed is absent, rainVolume
is 0 when the upstream rain volume is absent, and a present upstream value
0 maps to the same output 0 as an absent field. -/
theorem weather_optional_defaults :
    ∀ weatherData : WeatherData,
      (weatherData.wind_speed = none → (processWeather weatherData).windSpeed = 0) ∧
      (weatherData.rain_3h = none → (processWeather weatherData).rainVolume = 0) ∧
      (weatherData.wind_speed = some 0 → (processWeather weatherData).windSpeed = 0) ∧
      (weatherData.rain_3h = some 0 → (processWeather weatherData).rainVolume = 0) := by
  intro weatherData
  refine ⟨fun h => ?_, fun h => ?_, fun h => ?_, fun h => ?_⟩ <;>
    simp [processWeather, jsOrZero, h]

/-- Witness for `weather_optional_defaults` at concrete payloads: absent
fields on `calmPayload`, present-zero fields on `zeroPayload`. -/
theorem weather_optional_defaults_witness :
    (processWeather calmPayload).windSpeed = 0 ∧
    (processWeather calmPayload).rainVolume = 0 ∧
    (processWeather zeroPayload).windSpeed = 0 ∧
    (processWeather zeroPayload).rainVolume = 0 :=
  ⟨(weather_optional_defaults calmPayload).1 rfl,
   (weather_optional_defaults calmPayload).2.1 rfl,
   (weather_optional_defaults zeroPayload).2.2.1 rfl,
   (weather_optional_defaults zeroPayload).2.2.2 rfl⟩

/-- C10: the `GET /api/news` shaping keeps exactly the upstream articles —
same length, same order (the i-th output article is the mapped i-th
upstream article) — with no cap applied server-side; the size cap 5, the
sort order and the language filter live only in the outbound query sent
to the provider. -/
theorem news_no_server_cap :
    (∀ newsData : NewsData,
        ((processNews newsData).articles).length = newsData.articles.length) ∧
    (∀ (newsData : NewsData) (i : ℕ),
        (processNews newsData).articles[i]? =
          Option.map mapArticle newsData.articles[i]?) ∧
    (∀ q : String,
        (newsQuery q).pageSize = 5 ∧ (newsQuery q).sortBy = "publishedAt" ∧
        (newsQuery q).language = "en") := by
  refine ⟨fun newsData => ?_, fun newsData i => ?_, fun q => ⟨rfl, rfl, rfl⟩⟩
  · simp [processNews]
  · simp [processNews]

/-- C1: on `GET /api/data` with a (truthy) city, when the weather fetch
succeeds and the news fetch fails for any reason, the response is 200,
its news field is exactly the degraded placeholder (totalResults 0, empty
articles, error note present) and its weather field is the shaped
WeatherReport. -/
theorem data_news_degraded :
    ∀ (city : String) (weatherData : WeatherData) (newsFetch : FetchResult NewsData),
      city ≠ "" → newsFetch.isSuccess = false →
      apiDataHandler (some city) (.success weatherData) newsFetch =
        { resp := ⟨200, .payload
            ⟨processWeatherData weatherData,
             { totalResults := 0, articles := [],
               error := some ("News data unavailable") }⟩⟩
          weatherCalled := true
          newsCalled := true } := by
  intro city weatherData newsFetch hcity hfail
  cases newsFetch with
  | success nd => simp [FetchResult.isSuccess] at hfail
  | httpError s m => simp [apiDataHandler, jsTruthyStr, hcity]
  | networkError m => simp [apiDataHandler, jsTruthyStr, hcity]

/-- Witness for `data_news_degraded`: city London, the concrete London
weather payload, and a rate-limited news fetch. -/
theorem data_news_degraded_witness :
    apiDataHandler (some ("London")) (.success londonPayload)
        (.httpError 429 ("Request failed with status code 429")) =
      { resp := ⟨200, .payload
          ⟨processWeatherData londonPayload,
           { totalResults := 0, articles := [],
             error := some ("News data unavailable") }⟩⟩
        weatherCalled := true
        newsCalled := true } :=
  data_news_degraded ("London") londonPayload
    (.httpError 429 ("Request failed with status code 429")) (by decide) rfl

/-- C2 counterexample: the claim says an upstream unauthorized failure of
the weather call makes `GET /api/data` answer with the InvalidCredentials
error, but the catch block of the combined handler has no 401 branch: a 401
weather failure yields status 500 with the catch-all body, not 401. -/
theorem data_unauthorized_counterexample :
    (apiDataHandler (some ("London"))
        (.httpError 401 ("Request failed with status code 401"))
        (.success ⟨0, []⟩)).resp.status = 500 ∧
    (apiDataHandler (some ("London"))
        (.httpError 401 ("Request failed with status code 401"))
        (.success ⟨0, []⟩)).resp.status ≠ 401 ∧
    (apiDataHandler (some ("London"))
        (.httpError 401 ("Request failed with status code 401"))
        (.success ⟨0, []⟩)).resp.body =
      .errorMessage ("Failed to fetch data")
        ("Request failed with status code 401") := by
  refine ⟨?_, ?_, ?_⟩ <;> simp [apiDataHandler, jsTruthyStr]

/-- C2 amended: when the weather fetch of `GET /api/data` fails, an
upstream 404 yields status 404 with the City-not-found body, and every
other failure — the unauthorized case included — yields status 500 with
the catch-all failure body. -/
theorem data_weather_failure :
    ∀ (city m : String) (s : ℕ) (newsFetch : FetchResult NewsData),
      city ≠ "" →
      (s = 404 →
        (apiDataHandler (some city) (.httpError s m) newsFetch).resp =
          ⟨404, .errorMessage ("City not found")
              ("Please check the city name and try again")⟩) ∧
      (s ≠ 404 →
        (apiDataHandler (some city) (.httpError s m) newsFetch).resp =
          ⟨500, .errorMessage ("Failed to fetch data") m⟩) ∧
      (apiDataHandler (some city) (.networkError m) newsFetch).resp =
        ⟨500, .errorMessage ("Failed to fetch data") m⟩ := by
  intro city m s newsFetch hcity
  refine ⟨fun h404 => ?_, fun hne => ?_, ?_⟩ <;>
    simp [apiDataHandler, jsTruthyStr, hcity, *]

/-- Witness for `data_weather_failure` at city London, a 404 failure and a
401 failure. -/
theorem data_weather_failure_witness :
    ((apiDataHandler (some ("London"))
        (.httpError 404 ("Request failed with status code 404"))
        (.success ⟨0, []⟩)).resp =
      ⟨404, .errorMessage ("City not found")
          ("Please check the city name and try again")⟩) ∧
    ((apiDataHandler (some ("London"))
        (.httpError 401 ("Request failed with status code 401"))
        (.success ⟨0, []⟩)).resp =
      ⟨500, .errorMessage ("Failed to fetch data")
          ("Request failed with status code 401")⟩) :=
  ⟨(data_weather_failure ("London") ("Request failed with status code 404") 404
      (.success ⟨0, []⟩) (by decide)).1 rfl,
   (data_weather_failure ("London") ("Request failed with status code 401") 401
      (.success ⟨0, []⟩) (by decide)).2.1 (by decide)⟩

/-- C4: on `GET /api/data` with a city, when the weather fetch fails with
a not-found status, the response is 404 with the City-not-found error
body, and the news fetch is never issued on that path. -/
theorem data_notfound_skips_news :
    ∀ (city m : String) (newsFetch : FetchResult NewsData),
      city ≠ "" →
      (apiDataHandler (some city) (.httpError 404 m) newsFetch).resp.status = 404 ∧
      (apiDataHandler (some city) (.httpError 404 m) newsFetch).resp.body =
        .errorMessage ("City not found")
          ("Please check the city name and try again") ∧
      (apiDataHandler (some city) (.httpError 404 m) newsFetch).newsCalled = false := by
  intro city m newsFetch hcity
  refine ⟨?_, ?_, ?_⟩ <;> simp [apiDataHandler, jsTruthyStr, hcity]

/-- Witness for `data_notfound_skips_news` at the scenario of the spec
`city=UnknownPlace123`. -/
theorem data_notfound_skips_news_witness :
    (apiDataHandler (some ("UnknownPlace123"))
        (.httpError 404 ("Request failed with status code 404"))
        (.success ⟨0, []⟩)).resp.status = 404 ∧
    (apiDataHandler (some ("UnknownPlace123"))
        (.httpError 404 ("Request failed with status code 404"))
        (.success ⟨0, []⟩)).resp.body =
      .errorMessage ("City not found")
        ("Please check the city name and try again") ∧
    (apiDataHandler (some ("UnknownPlace123"))
        (.httpError 404 ("Request failed with status code 404"))
        (.success ⟨0, []⟩)).newsCalled = false :=
  data_notfound_skips_news ("UnknownPlace123")
    ("Request failed with status code 404") (.success ⟨0, []⟩) (by decide)

/-- C7: when the upstream news call of `GET /api/news` fails (with a
truthy city or country present so the call is issued), an upstream 429
yields status 429 with the rate-limit error body, an upstream 401 yields
status 401 with the invalid-key body, and any other failure — any other
HTTP status or a network error — yields status 500. -/
theorem news_failure_statuses :
    ∀ (city country : Option String) (m : String),
      (jsTruthyStr city = true ∨ jsTruthyStr country = true) →
      (apiNewsHandler city country (.httpError 429 m)).1 =
        ⟨429, .errorMessage ("API rate limit exceeded") ("Please try again later")⟩ ∧
      (apiNewsHandler city country (.httpError 401 m)).1 =
        ⟨401, .errorMessage ("Invalid API key") ("Please check your News API key")⟩ ∧
      (∀ s : ℕ, s ≠ 401 → s ≠ 429 →
        (apiNewsHandler city country (.httpError s m)).1.status = 500) ∧
      (apiNewsHandler city country (.networkError m)).1.status = 500 := by
  intro city country m htruthy
  have hcond : ¬(jsTruthyStr city = false ∧ jsTruthyStr country = false) := by
    rcases htruthy with h | h <;> simp [h]
  refine ⟨?_, ?_, fun s h1 h2 => ?_, ?_⟩ <;>
    simp [apiNewsHandler, hcond, *]

/-- Witness for `news_failure_statuses` at city London. -/
theorem news_failure_statuses_witness :
    ((apiNewsHandler (some ("London")) none
        (.httpError 429 ("Request failed with status code 429"))).1 =
      ⟨429, .errorMessage ("API rate limit exceeded") ("Please try again later")⟩) ∧
    ((apiNewsHandler (some ("London")) none
        (.httpError 401 ("Request failed with status code 429"))).1 =
      ⟨401, .errorMessage ("Invalid API key") ("Please check your News API key")⟩) ∧
    (apiNewsHandler (some ("London")) none
        (.httpError 500 ("Request failed with status code 429"))).1.status = 500 := by
  have h := news_failure_statuses (some ("London")) none
    ("Request failed with status code 429") (Or.inl (by decide))
  exact ⟨h.1, h.2.1, h.2.2.1 500 (by decide) (by decide)⟩

/-- C8: with the required query parameter absent — `city` on
`GET /api/weather` and `GET /api/data`, both `city` and `country` on
`GET /api/news` — each handler answers 400 with an error body carrying an
example usage hint, and issues no outbound upstream call, whatever the
(never consulted) fetch outcomes are. -/
theorem missing_param_rejected :
    ∀ (weatherFetch : FetchResult WeatherData) (newsFetch : FetchResult NewsData)
      (dataWeatherFetch : FetchResult WeatherData) (dataNewsFetch : FetchResult NewsData),
      apiWeatherHandler none weatherFetch =
        (⟨400, .errorExample ("City parameter is required")
            ("/api/weather?city=London")⟩, false) ∧
      apiNewsHandler none none newsFetch =
        (⟨400, .errorExample ("City or country parameter is required")
            ("/api/news?city=London or /api/news?country=GB")⟩, false) ∧
      apiDataHandler none dataWeatherFetch dataNewsFetch =
        { resp := ⟨400, .errorExample ("City parameter is required")
              ("/api/data?city=London")⟩
          weatherCalled := false
          newsCalled := false } :=
  fun _ _ _ _ => ⟨rfl, rfl, rfl⟩

/-- C3: a server-shaped article whose optional upstream field is missing
never fails — it still renders, with the client substituting the
placeholder text for a missing title or description and the empty image
branch for a missing image — and a successful news payload is answered
200 whatever optional fields its articles miss. -/
theorem article_placeholder_substitution :
    ∀ article : NewsArticleUp,
      (article.title = none →
        (createNewsCard (mapArticle article)).titleText = "No title available") ∧
      (article.description = none →
        (createNewsCard (mapArticle article)).descriptionText = "No description available") ∧
      (article.urlToImage = none →
        (createNewsCard (mapArticle article)).hasImage = false) ∧
      (∀ newsData : NewsData,
        (apiNewsHandler (some ("London")) none (.success newsData)).1 =
          ⟨200, .payload (processNews newsData)⟩) := by
  intro article
  refine ⟨fun h => ?_, fun h => ?_, fun h => ?_, fun newsData => rfl⟩ <;>
    simp [createNewsCard, mapArticle, jsOrStr, jsTruthyStr, h]

/-- Witness for `article_placeholder_substitution` at an article with all
optional fields missing, inside a one-article payload. -/
theorem article_placeholder_substitution_witness :
    (createNewsCard (mapArticle bareArticle)).titleText = "No title available" ∧
    (createNewsCard (mapArticle bareArticle)).descriptionText = "No description available" ∧
    (createNewsCard (mapArticle bareArticle)).hasImage = false ∧
    (apiNewsHandler (some ("London")) none (.success ⟨1, [bareArticle]⟩)).1 =
      ⟨200, .payload (processNews ⟨1, [bareArticle]⟩)⟩ :=
  ⟨(article_placeholder_substitution bareArticle).1 rfl,
   (article_placeholder_substitution bareArticle).2.1 rfl,
   (article_placeholder_substitution bareArticle).2.2.1 rfl,
   (article_placeholder_substitution bareArticle).2.2.2 ⟨1, [bareArticle]⟩⟩
